import Mathlib

/-!
Verification of the pr-ai (GitLift) core against its specification.

JavaScript strings are modelled shallowly as lists of characters (`Str`),
with the string operations the code uses (trim, startsWith, substring,
split, includes, toLowerCase) translated to executable Lean functions.
Each embedded definition is translated from the corresponding function in
the repository source; the file and line ranges are named in doc comments.
-/

namespace Gitlift

/-- A JavaScript string, modelled as its sequence of characters. -/
abbrev Str := List Char

/-- Whitespace test used by the string trimming operations. -/
def isWs (c : Char) : Bool := c.isWhitespace

/-- JavaScript trimStart: drop leading whitespace. -/
def trimLeft (s : Str) : Str := s.dropWhile isWs

/-- JavaScript trimEnd: drop trailing whitespace. -/
def trimRight (s : Str) : Str := (s.reverse.dropWhile isWs).reverse

/-- JavaScript trim: drop leading and trailing whitespace. -/
def trim (s : Str) : Str := trimRight (trimLeft s)

/-- JavaScript split on a single separator character.  Always returns a
nonempty list of segments; adjacent separators yield empty segments. -/
def splitOnChar (sep : Char) : Str → List Str
  | [] => [[]]
  | c :: rest =>
    match splitOnChar sep rest with
    | [] => [[]]
    | s :: ss => if c = sep then [] :: s :: ss else (c :: s) :: ss

/-- JavaScript includes: substring containment test. -/
def jsIncludes : Str → Str → Bool
  | [], pat => pat.isEmpty
  | c :: rest, pat => pat.isPrefixOf (c :: rest) || jsIncludes rest pat

/-- JavaScript toLowerCase (character by character). -/
def toLowerStr (s : Str) : Str := s.map Char.toLower

/-- The string sub occurs inside s (as a contiguous segment). -/
def containsSeg (s sub : Str) : Prop := ∃ u v, s = u ++ (sub ++ v)

/-!
## Working-tree classification
From src/core/git.ts, getUnstagedChanges (lines 242 - 279).
The function runs git status --porcelain, trims the whole output, splits it
into lines, trims each line, and classifies a line into the
unstaged-modified list when the trimmed line starts with "M " or " M", and
into the untracked list when it starts with "??"; the pushed path is the
trimmed remainder after the first two characters.
-/

/-- The per-line classification loop of getUnstagedChanges
(src/core/git.ts lines 252 - 260).  First component: unstagedModifiedFiles;
second component: untrackedFiles, both in input order. -/
def classifyStatusLines : List Str → List Str × List Str
  | [] => ([], [])
  | line :: rest =>
    let acc := classifyStatusLines rest
    let trimmedLine := trim line
    if ['M', ' '].isPrefixOf trimmedLine || [' ', 'M'].isPrefixOf trimmedLine then
      (trim (trimmedLine.drop 2) :: acc.1, acc.2)
    else if ['?', '?'].isPrefixOf trimmedLine then
      (acc.1, trim (trimmedLine.drop 2) :: acc.2)
    else acc

/-- getUnstagedChanges (src/core/git.ts lines 242 - 279), as a function of
the raw porcelain status output. -/
def getUnstagedChanges (statusOutput : Str) : List Str × List Str :=
  classifyStatusLines (splitOnChar '\n' (trim statusOutput))

/-! ### Helper lemmas about the string model -/

lemma dropWhile_subset (p : Char → Bool) (s : Str) :
    ∀ c, c ∈ s.dropWhile p → c ∈ s := by
  induction s with
  | nil => simp
  | cons x xs ih =>
    intro c hc
    rw [List.dropWhile_cons] at hc
    by_cases hx : p x = true
    · simp only [hx, if_true] at hc
      exact List.mem_cons_of_mem _ (ih c hc)
    · simp only [hx, if_false] at hc
      exact hc

lemma mem_of_mem_trim (c : Char) (s : Str) (h : c ∈ trim s) : c ∈ s := by
  unfold trim trimRight trimLeft at h
  rw [List.mem_reverse] at h
  have h1 := dropWhile_subset isWs _ c h
  rw [List.mem_reverse] at h1
  exact dropWhile_subset isWs s c h1

lemma splitOnChar_eq_single (sep : Char) (s : Str) (h : sep ∉ s) :
    splitOnChar sep s = [s] := by
  induction s with
  | nil => rfl
  | cons c rest ih =>
    have hc : ¬ c = sep := fun hcs => h (hcs ▸ List.mem_cons_self c rest)
    have hrest : sep ∉ rest := fun hm => h (List.mem_cons_of_mem c hm)
    rw [splitOnChar, ih hrest]
    simp [hc]

lemma dropWhile_append_anchor (xs : Str) (c : Char) (cs : Str) (hc : isWs c = false) :
    ∃ r, List.dropWhile isWs (xs ++ (c :: cs)) = r ++ (c :: cs) := by
  induction xs with
  | nil => exact ⟨[], by simp [List.dropWhile_cons, hc]⟩
  | cons x xs ih =>
    by_cases hx : isWs x = true
    · obtain ⟨r, hr⟩ := ih
      exact ⟨r, by simp [List.dropWhile_cons, hx, hr]⟩
    · exact ⟨x :: xs, by simp [List.dropWhile_cons, hx]⟩

/-- Trimming a string whose first two characters are not whitespace keeps
those two characters in place. -/
lemma trim_cons_cons (a b : Char) (l : Str) (ha : isWs a = false) (hb : isWs b = false) :
    ∃ t, trim (a :: b :: l) = a :: b :: t := by
  obtain ⟨r, hr⟩ := dropWhile_append_anchor l.reverse b ([a]) hb
  refine ⟨r.reverse, ?_⟩
  unfold trim trimLeft trimRight
  rw [List.dropWhile_cons_of_neg (by simp [ha])]
  have hrev : (a :: b :: l).reverse = l.reverse ++ (b :: [a]) := by simp
  rw [hrev, hr]
  simp

lemma isPrefixOf_M_space_double_M (t : Str) :
    (['M', ' '].isPrefixOf ('M' :: 'M' :: t)) = false := by
  simp [List.isPrefixOf, show (' ' == 'M') = false from rfl]

lemma isPrefixOf_space_M_double_M (t : Str) :
    ([' ', 'M'].isPrefixOf ('M' :: 'M' :: t)) = false := by
  simp [List.isPrefixOf, show (' ' == 'M') = false from rfl]

lemma isPrefixOf_qq_double_M (t : Str) :
    (['?', '?'].isPrefixOf ('M' :: 'M' :: t)) = false := by
  simp [List.isPrefixOf, show ('?' == 'M') = false from rfl]

/-- Claim C1 counterexample: a porcelain entry with column 1 = M and
column 2 = M (a file with both a staged and a further unstaged edit) does
NOT appear in the unstaged-modified list returned by getUnstagedChanges;
the trimmed line starts with MM, which matches neither of the two prefix
patterns the code tests. -/
theorem c1_counterexample_doubleModified_absent :
    ¬ ( "file.txt".data ∈ (getUnstagedChanges ( "MM file.txt").data).1) := by
  decide

/-- Claim C1 (amended): for every path whose porcelain status entry has
column 1 = M and column 2 = M, the working-tree classification drops the
entry entirely: the path appears in neither the unstaged-modified list nor
the untracked list. -/
theorem getUnstagedChanges_doubleModified_dropped (p : Str) (hp : '\n' ∉ p) :
    getUnstagedChanges ('M' :: 'M' :: ' ' :: p) = ([], []) := by
  obtain ⟨t, ht⟩ := trim_cons_cons 'M' 'M' (' ' :: p) (by decide) (by decide)
  have hnl : '\n' ∉ trim ('M' :: 'M' :: ' ' :: p) := by
    intro h
    have hmem := mem_of_mem_trim _ _ h
    rcases List.mem_cons.mp hmem with h1 | hmem2
    · exact absurd h1 (by decide)
    rcases List.mem_cons.mp hmem2 with h1 | hmem3
    · exact absurd h1 (by decide)
    rcases List.mem_cons.mp hmem3 with h1 | h1
    · exact absurd h1 (by decide)
    · exact hp h1
  unfold getUnstagedChanges
  rw [splitOnChar_eq_single _ _ hnl, ht]
  obtain ⟨t2, ht2⟩ := trim_cons_cons 'M' 'M' t (by decide) (by decide)
  simp [classifyStatusLines, ht2, isPrefixOf_M_space_double_M,
    isPrefixOf_space_M_double_M, isPrefixOf_qq_double_M]

/-- Witness for the amended claim C1 at a concrete doubly modified entry. -/
theorem getUnstagedChanges_doubleModified_dropped_witness :
    getUnstagedChanges ('M' :: 'M' :: ' ' :: ( "file.txt".data)) = ([], []) :=
  getUnstagedChanges_doubleModified_dropped ( "file.txt".data) (by decide)

/-- Claim C2: evaluation of getUnstagedChanges at the failing input.  The
porcelain entry "M  file.txt" has column 1 = M and column 2 = space (a
fully staged modification with no further working-tree edit), yet the code
places the path in the unstaged-modified list: after trimming, the line
starts with "M ".  The repository documentation
(BUGS_FOUND_AND_FIXED.md, Bug 1) records this behaviour as a logic error
that incorrectly identifies staged files as unstaged. -/
theorem c2_stagedOnly_in_unstagedModified :
    getUnstagedChanges ( "M  file.txt").data = ([ "file.txt".data], []) := by
  decide

/-!
## Provider error classification
From src/utils/errors.ts, parseAiApiError (lines 11 - 64).
A thrown value is modelled as Option Str: some msg for an Error with
message msg, none for a non-Error thrown value.  The function returns the
user-facing message of the Error object it builds.
-/

/-- The marker the AI SDK puts in front of provider API call errors. -/
def apiCallErrorPrefix : Str := ( "AI_APICallError:").data

def invalidKeyMsg : Str :=
  ( "Invalid OpenAI API Key provided. Please check your OPENAI_API_KEY environment variable.").data

def rateLimitMsg : Str :=
  ( "OpenAI API rate limit exceeded. Please try again later or check your usage.").data

def modelNotFoundMsg (modelName : Str) : Str :=
  ( "The specified AI model was not found: ").data ++ modelName ++
    ( ". Please check the model name or your API access.").data

def quotaMsg : Str :=
  ( "OpenAI API quota exceeded. Please check your billing details on OpenAI.").data

def nonErrorMsg : Str :=
  ( "An unexpected non-Error object was thrown during AI generation.").data

/-- The provider's raw error text: the message with the AI SDK marker
stripped and surrounding whitespace trimmed (src/utils/errors.ts
lines 21 - 23). -/
def apiErrorText (msg : Str) : Str := trim (msg.drop apiCallErrorPrefix.length)

/-- parseAiApiError (src/utils/errors.ts lines 11 - 64).  The stripped
and trimmed provider text the source binds to the local variable
apiErrorMessage is written here through apiErrorText. -/
def parseAiApiError (err : Option Str) (modelName : Str) : Str :=
  match err with
  | some msg =>
    if apiCallErrorPrefix.isPrefixOf msg then
      if jsIncludes (toLowerStr (apiErrorText msg)) ( "incorrect api key").data then
        invalidKeyMsg
      else if jsIncludes (toLowerStr (apiErrorText msg)) ( "rate limit").data then
        rateLimitMsg
      else if jsIncludes (toLowerStr (apiErrorText msg)) ( "model not found").data then
        modelNotFoundMsg modelName
      else if jsIncludes (toLowerStr (apiErrorText msg)) ( "insufficient quota").data then
        quotaMsg
      else
        ( "OpenAI API Error: ").data ++ apiErrorText msg
    else msg
  | none => nonErrorMsg

/-- Claim C3: classification of thrown provider errors is deterministic,
case-insensitive substring matching over the provider's raw error text, in
priority order: "incorrect api key" gives the fixed invalid-credential
message; otherwise "rate limit" gives the fixed rate-limited message;
otherwise "model not found" gives a message naming the requested model;
otherwise "insufficient quota" gives the fixed quota message; any other
provider-call failure (message carrying the AI SDK marker but matching no
pattern) surfaces the original provider text; a plain Error without the
marker surfaces its own message verbatim; a non-Error thrown value gives
the generic failure message. -/
theorem parseAiApiError_classification (modelName : Str) :
    (∀ msg, apiCallErrorPrefix.isPrefixOf msg = true →
      jsIncludes (toLowerStr (apiErrorText msg)) ( "incorrect api key").data = true →
      parseAiApiError (some msg) modelName = invalidKeyMsg)
  ∧ (∀ msg, apiCallErrorPrefix.isPrefixOf msg = true →
      jsIncludes (toLowerStr (apiErrorText msg)) ( "incorrect api key").data = false →
      jsIncludes (toLowerStr (apiErrorText msg)) ( "rate limit").data = true →
      parseAiApiError (some msg) modelName = rateLimitMsg)
  ∧ (∀ msg, apiCallErrorPrefix.isPrefixOf msg = true →
      jsIncludes (toLowerStr (apiErrorText msg)) ( "incorrect api key").data = false →
      jsIncludes (toLowerStr (apiErrorText msg)) ( "rate limit").data = false →
      jsIncludes (toLowerStr (apiErrorText msg)) ( "model not found").data = true →
      parseAiApiError (some msg) modelName = modelNotFoundMsg modelName
        ∧ containsSeg (parseAiApiError (some msg) modelName) modelName)
  ∧ (∀ msg, apiCallErrorPrefix.isPrefixOf msg = true →
      jsIncludes (toLowerStr (apiErrorText msg)) ( "incorrect api key").data = false →
      jsIncludes (toLowerStr (apiErrorText msg)) ( "rate limit").data = false →
      jsIncludes (toLowerStr (apiErrorText msg)) ( "model not found").data = false →
      jsIncludes (toLowerStr (apiErrorText msg)) ( "insufficient quota").data = true →
      parseAiApiError (some msg) modelName = quotaMsg)
  ∧ (∀ msg, apiCallErrorPrefix.isPrefixOf msg = true →
      jsIncludes (toLowerStr (apiErrorText msg)) ( "incorrect api key").data = false →
      jsIncludes (toLowerStr (apiErrorText msg)) ( "rate limit").data = false →
      jsIncludes (toLowerStr (apiErrorText msg)) ( "model not found").data = false →
      jsIncludes (toLowerStr (apiErrorText msg)) ( "insufficient quota").data = false →
      parseAiApiError (some msg) modelName = ( "OpenAI API Error: ").data ++ apiErrorText msg
        ∧ containsSeg (parseAiApiError (some msg) modelName) (apiErrorText msg))
  ∧ (∀ msg, apiCallErrorPrefix.isPrefixOf msg = false →
      parseAiApiError (some msg) modelName = msg)
  ∧ parseAiApiError none modelName = nonErrorMsg := by
  refine ⟨?_, ?_, ?_, ?_, ?_, ?_, rfl⟩
  · intro msg h0 h1
    simp only [parseAiApiError]
    rw [h0, h1]
    simp
  · intro msg h0 h1 h2
    simp only [parseAiApiError]
    rw [h0, h1, h2]
    simp
  · intro msg h0 h1 h2 h3
    have hval : parseAiApiError (some msg) modelName = modelNotFoundMsg modelName := by
      simp only [parseAiApiError]
      rw [h0, h1, h2, h3]
      simp
    refine ⟨hval, ?_⟩
    rw [hval]
    exact ⟨( "The specified AI model was not found: ").data,
      ( ". Please check the model name or your API access.").data, rfl⟩
  · intro msg h0 h1 h2 h3 h4
    simp only [parseAiApiError]
    rw [h0, h1, h2, h3, h4]
    simp
  · intro msg h0 h1 h2 h3 h4
    have hval : parseAiApiError (some msg) modelName =
        ( "OpenAI API Error: ").data ++ apiErrorText msg := by
      simp only [parseAiApiError]
      rw [h0, h1, h2, h3, h4]
      simp
    refine ⟨hval, ?_⟩
    rw [hval]
    exact ⟨( "OpenAI API Error: ").data, [], by simp⟩
  · intro msg h0
    simp only [parseAiApiError]
    rw [h0]
    simp

/-- Witness for claim C3 at the concrete input from the repository test
suite: an API call error mentioning an incorrect api key is classified to
the fixed invalid-credential message. -/
theorem parseAiApiError_classification_witness :
    parseAiApiError (some ( "AI_APICallError: incorrect api key provided").data)
      ( "gpt-4").data = invalidKeyMsg :=
  (parseAiApiError_classification ( "gpt-4").data).1
    ( "AI_APICallError: incorrect api key provided").data (by decide) (by decide)

/-!
## Remote sync coordination
From src/core/git.ts, ensureBranchIsPushed (lines 116 - 196).
Lines 127 - 139 parse the porcelain v2 branch status into the upstream
ref (empty when the branch has no upstream) and the ahead count; lines
141 - 156 then set the needsPush and setUpstream flags.  The decision is
embedded as a function of that observed branch state. -/

/-- The needsPush / setUpstream decision of ensureBranchIsPushed
(src/core/git.ts lines 123 - 156): first component needsPush, second
component setUpstream.  An empty upstream string is the falsy value the
source tests with if (!upstream). -/
def pushDecision (upstream : Str) (ahead : Int) : Bool × Bool :=
  if upstream.isEmpty then (true, true)
  else if ahead > 0 then (true, false)
  else (false, false)

/-- Claim C4: a push is needed iff the branch has no upstream or its ahead
count is positive; the push sets the upstream link iff the branch has no
upstream; in particular a branch without upstream is always treated as
needing a push with upstream-set. -/
theorem ensureBranchIsPushed_decision (upstream : Str) (ahead : Int) :
    ((pushDecision upstream ahead).1 = true ↔ (upstream = [] ∨ 0 < ahead))
  ∧ ((pushDecision upstream ahead).2 = true ↔ upstream = [])
  ∧ (upstream = [] → pushDecision upstream ahead = (true, true)) := by
  unfold pushDecision
  rcases upstream with _ | ⟨c, rest⟩
  · simp
  · simp only [List.isEmpty_cons, if_false, Bool.false_eq_true]
    by_cases h : ahead > 0
    · simp [h]
    · simp [h]

/-- Witness for claim C4 at a branch with no upstream. -/
theorem ensureBranchIsPushed_decision_witness :
    pushDecision [] 0 = (true, true) :=
  (ensureBranchIsPushed_decision [] 0).2.2 rfl

/-!
## Commit message finalization
From src/commands/generate/commit.ts, handleGenerateCommit
(lines 128 - 136): the final commit message is the title, and when the
body is non-blank after trimming, a blank line and the trimmed body are
appended; the resulting string is the exact argument handed to gitCommit
(line 136). -/

/-- The final commit message string built by handleGenerateCommit
(src/commands/generate/commit.ts lines 131 - 134) and passed verbatim to
gitCommit. -/
def buildCommitMessage (title body : Str) : Str :=
  if (trim body).isEmpty then title
  else title ++ (( "\n\n").data ++ trim body)

/-- Claim C5: the final commit message equals the title alone when the
body is blank after trimming (no trailing blank line), and otherwise
equals the title, one blank line, and the trimmed body. -/
theorem buildCommitMessage_spec (title body : Str) :
    (trim body = [] → buildCommitMessage title body = title)
  ∧ (trim body ≠ [] →
      buildCommitMessage title body = title ++ (( "\n\n").data ++ trim body)) := by
  constructor
  · intro h
    unfold buildCommitMessage
    rw [h]
    rfl
  · intro h
    unfold buildCommitMessage
    rw [if_neg (by simpa [List.isEmpty_iff] using h)]

/-- Witness for claim C5: a body that is blank after trimming yields the
title only. -/
theorem buildCommitMessage_spec_witness :
    buildCommitMessage ( "feat: add parser").data ( "  \n ").data
      = ( "feat: add parser").data :=
  (buildCommitMessage_spec ( "feat: add parser").data ( "  \n ").data).1 (by decide)

/-!
## Interactive review state machine
From src/unnamed/part_005, reviewAndConfirmPr (lines 254 - 311): a loop
that re-displays the current title and body, then acts on the selected
action: confirm returns the current artifact, edit-title replaces the
title, edit-body replaces the body, cancel returns null.  From
src/commands/generate/pr.ts, handleGeneratePr (lines 60 - 72): when the
skip-confirmations option is set the review machine is not invoked and
the generated artifact is used unchanged.
The operator input stream is modelled as a list of actions; the outer
Option is none when the stream ends without reaching a terminal state. -/

inductive ReviewAction where
  | confirm : ReviewAction
  | editTitle : String → ReviewAction
  | editBody : String → ReviewAction
  | cancel : ReviewAction

/-- One iteration of the review loop: either a new (title, body) state to
loop with, or a terminal result (some artifact on confirm, none on
cancel). -/
def reviewStep (title body : String) :
    ReviewAction → (String × String) ⊕ (Option (String × String))
  | ReviewAction.confirm => Sum.inr (some (title, body))
  | ReviewAction.editTitle t => Sum.inl (t, body)
  | ReviewAction.editBody b => Sum.inl (title, b)
  | ReviewAction.cancel => Sum.inr none

/-- reviewAndConfirmPr (src/unnamed/part_005 lines 254 - 311) driven by a
finite stream of operator actions. -/
def reviewAndConfirmPr (title body : String) :
    List ReviewAction → Option (Option (String × String))
  | [] => none
  | a :: rest =>
    match reviewStep title body a with
    | Sum.inr r => some r
    | Sum.inl (t, b) => reviewAndConfirmPr t b rest

/-- The review section of handleGeneratePr
(src/commands/generate/pr.ts lines 60 - 72): with skip-confirmations set
the machine is bypassed and the generated artifact is kept unchanged. -/
def finalPrContent (skipConfirmations : Bool) (initialTitle initialBody : String)
    (actions : List ReviewAction) : Option (Option (String × String)) :=
  if skipConfirmations then some (some (initialTitle, initialBody))
  else reviewAndConfirmPr initialTitle initialBody actions

/-- Claim C6: confirming a review session immediately, without any edit
action, returns an artifact identical to the generated one; and with
skip-confirmations set the review machine is bypassed entirely and the
unmodified generated artifact is the confirmed result, whatever the
operator input stream. -/
theorem reviewAndConfirmPr_identity (title body : String) (rest actions : List ReviewAction) :
    (finalPrContent false title body (ReviewAction.confirm :: rest)
      = some (some (title, body)))
  ∧ (finalPrContent true title body actions = some (some (title, body))) := by
  constructor
  · rfl
  · rfl

/-!
## Branch analysis
From src/core/git.ts, getGitInfo (lines 14 - 107).
Lines 19 - 41 validate the base branch against the outputs of the local
branch listing and the remote head listing; lines 70 - 99 check the count
of commits ahead of the base branch, fetch the diff and commit log, and
warn when the diff is empty despite commits being present.  Both parts
are embedded as functions of the captured command outputs; a fatal error
is an Except.error carrying the thrown message, and non-fatal warnings
are returned alongside the result. -/

def baseBranchNotFoundMsg (baseBranch : Str) : Str :=
  ( "Base branch \x27").data ++ baseBranch ++
    ( "\x27 not found locally or on remote \x27origin\x27.").data

def baseBranchRemoteOnlyWarning (baseBranch : Str) : Str :=
  ( "Base branch \x27").data ++ baseBranch ++
    ( "\x27 not found locally, but exists on remote \x27origin\x27. Proceeding...").data

/-- The base branch validation of getGitInfo (src/core/git.ts
lines 19 - 41), as a function of the outputs of the local and remote
branch listing commands.  Result: the list of non-fatal warnings emitted,
or the fatal error. -/
def validateBaseBranch (baseBranch localBranchExists remoteBranchExists : Str) :
    Except Str (List Str) :=
  if (trim localBranchExists).isEmpty then
    if (trim remoteBranchExists).isEmpty then
      Except.error (baseBranchNotFoundMsg baseBranch)
    else Except.ok [baseBranchRemoteOnlyWarning baseBranch]
  else Except.ok []

def noCommitsMsg (currentBranch baseBranch : Str) : Str :=
  ( "No commits found on branch \x27").data ++ currentBranch ++
    (( "\x27 ahead of \x27").data ++ baseBranch ++
      ( "\x27. Nothing to create a PR for.").data)

def emptyDiffWarning : Str :=
  ( "Warning: Commits found, but the diff appears empty. Proceeding anyway.").data

/-- The branch analysis result of getGitInfo: current branch, diff and
trimmed one-line commit log (src/core/git.ts lines 94 - 99). -/
structure GitInfo where
  currentBranch : Str
  diff : Str
  commits : Str
deriving DecidableEq

/-- The commit-count and diff section of getGitInfo (src/core/git.ts
lines 70 - 99), as a function of the current branch, the base branch, the
parsed commit count and the captured diff and commit-log outputs.  A zero
commit count throws; otherwise the result is returned together with the
non-fatal warnings emitted. -/
def checkCommitsAndDiff (currentBranch baseBranch : Str) (commitCount : Nat)
    (diffOutput commitLogOutput : Str) : Except Str (GitInfo × List Str) :=
  if commitCount = 0 then
    Except.error (noCommitsMsg currentBranch baseBranch)
  else
    Except.ok (⟨currentBranch, diffOutput, trim commitLogOutput⟩,
      if (trim diffOutput).isEmpty && decide (0 < commitCount) then [emptyDiffWarning] else [])

/-- Claim C7: a zero count of commits ahead of the base branch is a fatal
error whose message names both the current and the base branch; a nonzero
count never fails here, and an empty diff alongside a nonzero count only
adds the non-fatal empty-diff warning to an otherwise successful result. -/
theorem getGitInfo_commitCount (cur base diffOut logOut : Str) (n : Nat) :
    (n = 0 →
      checkCommitsAndDiff cur base n diffOut logOut
          = Except.error (noCommitsMsg cur base)
        ∧ containsSeg (noCommitsMsg cur base) cur
        ∧ containsSeg (noCommitsMsg cur base) base)
  ∧ (n ≠ 0 →
      checkCommitsAndDiff cur base n diffOut logOut
        = Except.ok (⟨cur, diffOut, trim logOut⟩,
            if (trim diffOut).isEmpty then [emptyDiffWarning] else [])) := by
  constructor
  · intro hn
    subst hn
    refine ⟨rfl, ⟨( "No commits found on branch \x27").data, _, rfl⟩, ?_⟩
    refine ⟨( "No commits found on branch \x27").data ++ cur ++ ( "\x27 ahead of \x27").data,
      ( "\x27. Nothing to create a PR for.").data, ?_⟩
    unfold noCommitsMsg
    simp [List.append_assoc]
  · intro hn
    unfold checkCommitsAndDiff
    rw [if_neg hn]
    have hpos : decide (0 < n) = true := by
      simp [Nat.pos_of_ne_zero hn]
    rw [hpos]
    simp

/-- Witness for claim C7 at a concrete branch pair with zero commits
ahead. -/
theorem getGitInfo_commitCount_witness :
    checkCommitsAndDiff ( "feature-x").data ( "main").data 0 [] []
        = Except.error (noCommitsMsg ( "feature-x").data ( "main").data)
      ∧ containsSeg (noCommitsMsg ( "feature-x").data ( "main").data) ( "feature-x").data
      ∧ containsSeg (noCommitsMsg ( "feature-x").data ( "main").data) ( "main").data :=
  (getGitInfo_commitCount ( "feature-x").data ( "main").data [] [] 0).1 rfl

/-- Claim C8: a base branch present locally proceeds with no warning; one
absent locally but present on the remote proceeds with the non-fatal
remote-only warning; one absent on both fails with the not-found error. -/
theorem getGitInfo_baseBranchValidation (base localOut remoteOut : Str) :
    (trim localOut ≠ [] →
      validateBaseBranch base localOut remoteOut = Except.ok [])
  ∧ (trim localOut = [] → trim remoteOut ≠ [] →
      validateBaseBranch base localOut remoteOut
        = Except.ok [baseBranchRemoteOnlyWarning base])
  ∧ (trim localOut = [] → trim remoteOut = [] →
      validateBaseBranch base localOut remoteOut
        = Except.error (baseBranchNotFoundMsg base)) := by
  refine ⟨?_, ?_, ?_⟩
  · intro h
    unfold validateBaseBranch
    rw [if_neg (by simpa [List.isEmpty_iff] using h)]
  · intro h1 h2
    unfold validateBaseBranch
    rw [if_pos (by simpa [List.isEmpty_iff] using h1),
      if_neg (by simpa [List.isEmpty_iff] using h2)]
  · intro h1 h2
    unfold validateBaseBranch
    rw [if_pos (by simpa [List.isEmpty_iff] using h1),
      if_pos (by simpa [List.isEmpty_iff] using h2)]

/-- Witness for claim C8: a base branch found neither locally nor on the
remote is a fatal error. -/
theorem getGitInfo_baseBranchValidation_witness :
    validateBaseBranch ( "develop").data [] []
      = Except.error (baseBranchNotFoundMsg ( "develop").data) :=
  (getGitInfo_baseBranchValidation ( "develop").data [] []).2.2 rfl rfl

/-!
## Configuration resolution
From src/config/config.ts (embedded in src/BUGS_FOUND_AND_FIXED.md,
lines 91 - 155): the persisted file configuration has four optional
fields, and loadConfig returns the object spread of the built-in defaults
with the loaded file values (loaded values override defaults, line 154).
From src/cli.ts lines 46 - 58 and src/commands/generate/pr.ts: the final
per-run options take each field from the explicit command-line value when
one was passed and from the resolved configuration otherwise. -/

/-- The persisted configuration shape (ConfigFileSchema): every field is
optional; an absent field is none. -/
structure AppConfig where
  baseBranch : Option String
  model : Option String
  skipConfirmations : Option Bool
  language : Option String
deriving DecidableEq

/-- The built-in defaults (src/config/config.ts defaultConfig). -/
def defaultConfig : AppConfig :=
  ⟨some "main", some "gpt-4.1-mini", some false, some "english"⟩

/-- One field of a JavaScript object spread: the override value wins when
present. -/
def overrideField {α : Type} : Option α → Option α → Option α
  | _, some v => some v
  | base, none => base

/-- The object spread of two configurations, field by field. -/
def spreadMerge (a b : AppConfig) : AppConfig :=
  ⟨overrideField a.baseBranch b.baseBranch,
    overrideField a.model b.model,
    overrideField a.skipConfirmations b.skipConfirmations,
    overrideField a.language b.language⟩

/-- loadConfig (src/config/config.ts line 154): defaults spread with the
loaded file configuration. -/
def loadConfig (fileConfig : AppConfig) : AppConfig :=
  spreadMerge defaultConfig fileConfig

/-- The fully resolved per-run configuration: every field present. -/
structure ResolvedConfig where
  baseBranch : String
  model : String
  skipConfirmations : Bool
  language : String
deriving DecidableEq

/-- The command-line layer (src/cli.ts lines 46 - 58 and the option
defaulting in src/commands/generate/pr.ts): each explicitly passed
command-line value overrides the resolved configuration value. -/
def resolveOptions (config : ResolvedConfig) (cliBase cliModel : Option String)
    (cliYes : Option Bool) (cliLanguage : Option String) : ResolvedConfig :=
  ⟨cliBase.getD config.baseBranch,
    cliModel.getD config.model,
    cliYes.getD config.skipConfirmations,
    cliLanguage.getD config.language⟩

/-- Claim C9: the configuration merge is idempotent; after the file layer
every field is populated, with the file value winning over the built-in
default per field; and every explicitly passed command-line value wins
over the resolved configuration value, which is kept otherwise. -/
theorem configMerge_spec :
    (∀ c : AppConfig, spreadMerge c c = c)
  ∧ (∀ f : AppConfig, loadConfig f =
      ⟨some (f.baseBranch.getD "main"), some (f.model.getD "gpt-4.1-mini"),
        some (f.skipConfirmations.getD false), some (f.language.getD "english")⟩)
  ∧ (∀ cfg b m y l (v : String), (resolveOptions cfg (some v) m y l).baseBranch = v
      ∧ (resolveOptions cfg b (some v) y l).model = v)
  ∧ (∀ cfg y l (v : Bool), (resolveOptions cfg none none (some v) l).skipConfirmations = v
      ∧ (∀ w, (resolveOptions cfg none none y (some w)).language = w))
  ∧ (∀ cfg, resolveOptions cfg none none none none = cfg) := by
  refine ⟨?_, ?_, ?_, ?_, ?_⟩
  · rintro ⟨b, m, y, l⟩
    cases b <;> cases m <;> cases y <;> cases l <;> rfl
  · rintro ⟨b, m, y, l⟩
    cases b <;> cases m <;> cases y <;> cases l <;> rfl
  · intro cfg b m y l v
    exact ⟨rfl, rfl⟩
  · intro cfg y l v
    exact ⟨rfl, fun w => rfl⟩
  · rintro ⟨b, m, y, l⟩
    rfl

/-!
## Opening the created pull request
From src/github.ts, askAndOpenPr (lines 59 - 95).  The operator
confirmation (skipped when skipConfirm is set) is the openPr flag; the
outcome of the gh browse process is the browseFails flag.  The function
returns an outcome instead of throwing: every failure path ends in a
logged warning. -/

inductive OpenOutcome where
  /-- The browse command was attempted and succeeded. -/
  | opened : OpenOutcome
  /-- The browse command was attempted and failed; a warning is logged and
  the carried URL is printed for manual opening. -/
  | openFailedWarning : Str → OpenOutcome
  /-- No PR number could be extracted from the URL; a warning is logged
  and no open is attempted. -/
  | cannotExtractWarning : OpenOutcome
  /-- The operator declined to open the PR. -/
  | declined : OpenOutcome
deriving DecidableEq

/-- askAndOpenPr (src/github.ts lines 59 - 95): the last slash-separated
segment of the URL must be one or more digits for the browse command to
be attempted; a failing browse command is caught and reported as a
warning together with the URL. -/
def askAndOpenPr (prUrl : Str) (openPr : Bool) (browseFails : Bool) : OpenOutcome :=
  if openPr then
    if (decide (((splitOnChar '/' prUrl).getLastD []) ≠ [])
        && ((splitOnChar '/' prUrl).getLastD []).all Char.isDigit) then
      if browseFails then OpenOutcome.openFailedWarning prUrl else OpenOutcome.opened
    else OpenOutcome.cannotExtractWarning
  else OpenOutcome.declined

/-- Claim C10: when the operator accepts, the browse command is attempted
exactly when the last slash-separated segment of the URL consists of one or
more digits; a non-digit segment gives only a warning with no open
attempt; and a failure of the browse command itself is caught and turned
into a warning carrying the URL for manual opening.  The function always
returns an outcome: no error propagates. -/
theorem askAndOpenPr_spec (prUrl : Str) (browseFails : Bool) :
    ((((splitOnChar '/' prUrl).getLastD []) ≠ []
        ∧ ((splitOnChar '/' prUrl).getLastD []).all Char.isDigit = true) →
      askAndOpenPr prUrl true browseFails
        = if browseFails then OpenOutcome.openFailedWarning prUrl else OpenOutcome.opened)
  ∧ ((((splitOnChar '/' prUrl).getLastD []) = []
        ∨ ((splitOnChar '/' prUrl).getLastD []).all Char.isDigit = false) →
      askAndOpenPr prUrl true browseFails = OpenOutcome.cannotExtractWarning) := by
  constructor
  · rintro ⟨h1, h2⟩
    unfold askAndOpenPr
    rw [if_pos rfl,
      if_pos (show _ = true by rw [Bool.and_eq_true]; exact ⟨decide_eq_true h1, h2⟩)]
  · intro h
    have hcond : (decide (((splitOnChar '/' prUrl).getLastD []) ≠ [])
        && ((splitOnChar '/' prUrl).getLastD []).all Char.isDigit) = false := by
      rcases h with h | h
      · rw [decide_eq_false (fun hn => hn h), Bool.false_and]
      · rw [h, Bool.and_false]
    unfold askAndOpenPr
    rw [if_pos rfl, if_neg (fun hc => absurd (hcond.symm.trans hc) Bool.false_ne_true)]

/-- Witness for claim C10: a URL ending in a numeric segment, with a
failing browse command, yields the caught-failure warning carrying the
URL. -/
theorem askAndOpenPr_spec_witness :
    askAndOpenPr ( "https://github.com/arthurbm/pr-ai/pull/42").data true true
      = OpenOutcome.openFailedWarning ( "https://github.com/arthurbm/pr-ai/pull/42").data :=
  (askAndOpenPr_spec ( "https://github.com/arthurbm/pr-ai/pull/42").data true).1
    ⟨by decide, by decide⟩

end Gitlift
